import Mathlib

/-!
Shallow embedding of the call-task orchestration core of `src/app.py`
(repository `mission-control-ui`): the `CallTask` record, its `CallEvent`
log, and the lifecycle endpoints `/n8n/call/<id>/start`,
`/n8n/call/<id>/turn`, `/n8n/call/<id>/complete`, `/n8n/call/<id>/error`,
`/call/<id>/cancel`, `/call/schedule`, the Twilio status callback
`/twilio/status`, the hybrid-routing helper `_should_use_elevenlabs_agent`,
and the conversation-window builder inside `_phone_agent_chat`.

Conventions of the embedding: `datetime` instants are natural numbers,
SQLAlchemy row updates followed by `commit` are pure record updates, the
event rows of one task form a Lean list in chronological insertion order,
and the Python float expression `int(duration_seconds / 60 * rate)` is the
exact natural division `duration_seconds * rate / 60` (for non-negative
integers `int` truncation is the floor of the exact quotient).  JSON
parse/re-serialize round-trips on opaque payload strings are abstracted by
an explicit normalization function passed as an argument.
-/

namespace MissionControl

/-- The status strings stored in `CallTask.status` (src/app.py line 141-142). -/
inductive Status where
  | draft
  | scheduled
  | in_progress
  | completed
  | failed
  | canceled
  deriving Repr, DecidableEq

/-- The string stored in the database column for each status value. -/
def Status.toStr : Status → String
  | .draft => "draft"
  | .scheduled => "scheduled"
  | .in_progress => "in_progress"
  | .completed => "completed"
  | .failed => "failed"
  | .canceled => "canceled"

/-- Terminal statuses per the lifecycle: completed, failed, canceled. -/
def Status.isTerminal : Status → Bool
  | .completed => true
  | .failed => true
  | .canceled => true
  | _ => false

/-- One row of the `call_tasks` table (src/app.py lines 135-175), restricted
to the columns the orchestration endpoints read or write. -/
structure CallTask where
  status : Status := .draft
  target_name : Option String := none
  target_phone : String := ""
  objective : Option String := none
  context : Option String := none
  call_script : Option String := none
  scheduled_at : Option Nat := none
  twilio_call_sid : Option String := none
  result_status : Option String := none
  result_summary : Option String := none
  result_data : Option String := none
  transcript : Option String := none
  started_at : Option Nat := none
  completed_at : Option Nat := none
  routing_type : Option String := none
  duration_seconds : Option Nat := none
  cost_cents : Option Nat := none
  deriving Repr, DecidableEq

/-- The structured payloads `log_call_event` serializes to JSON, one
constructor per call site in src/app.py. -/
inductive EventPayload where
  | started (twilio_call_sid : Option String)
  | turn (speaker : Option String) (text : Option String) (turn_timestamp : Option String)
  | completed (result_status : Option String) (result_summary : Option String)
      (duration_seconds : Option Nat)
  | canceled (previous_status : String)
  | err (error_message : Option String) (error_code : Option String)
  | twilioStatus (call_status : String) (duration : Option Nat)
  | created (target_phone : String) (scheduled_at : Nat) (routing_type : Option String)
  deriving Repr, DecidableEq

/-- One row of the `call_events` table (src/app.py lines 178-192) for a fixed
task, as written by `log_call_event` (lines 235-246). -/
structure CallEvent where
  event_type : String
  payload : Option EventPayload := none
  error_message : Option String := none
  deriving Repr, DecidableEq

/-- The durable state of one call task: its row plus its event rows in
chronological insertion order. -/
structure SysState where
  task : CallTask
  events : List CallEvent
  deriving Repr, DecidableEq

/-- `log_call_event` (src/app.py lines 235-246): append one event row. -/
def log_call_event (s : SysState) (event_type : String) (payload : Option EventPayload)
    (error_message : Option String) : SysState :=
  { s with events := s.events ++
      [{ event_type := event_type, payload := payload, error_message := error_message }] }

-- -------- Cost constants and cost computation (src/app.py lines 80-84, 549-552) --------

/-- `COST_PER_MIN_ELEVENLABS_AGENT = 10` (cents per minute). -/
def COST_PER_MIN_ELEVENLABS_AGENT : Nat := 10

/-- `COST_PER_MIN_TWILIO_CUSTOM = 2` (cents per minute). -/
def COST_PER_MIN_TWILIO_CUSTOM : Nat := 2

/-- `WEEKLY_COST_LIMIT_CENTS = 2000`. -/
def WEEKLY_COST_LIMIT_CENTS : Nat := 2000

/-- `WEEKLY_CALLS_PER_USER = 4`. -/
def WEEKLY_CALLS_PER_USER : Nat := 4

/-- The per-minute rate chosen at cost-computation time:
`COST_PER_MIN_ELEVENLABS_AGENT if call.routing_type == "elevenlabs_agent"
else COST_PER_MIN_TWILIO_CUSTOM` (src/app.py line 551 and line 1120). -/
def ratePerMin (routing_type : Option String) : Nat :=
  if routing_type = some "elevenlabs_agent" then COST_PER_MIN_ELEVENLABS_AGENT
  else COST_PER_MIN_TWILIO_CUSTOM

/-- `max(1, int(duration_seconds / 60 * rate))` (src/app.py line 552 and
line 1121); `int` truncation of the non-negative float equals the floor of
the exact quotient, i.e. natural division. -/
def costCents (duration_seconds : Nat) (rate : Nat) : Nat :=
  max 1 (duration_seconds * rate / 60)

-- -------- Lifecycle endpoints --------

/-- `POST /n8n/call/<id>/start` (src/app.py lines 462-487), body of the
found-task branch: unconditionally sets status `in_progress`, overwrites
`started_at` with the current time and `twilio_call_sid` with the posted
value, then logs a `started` event. -/
def n8n_call_start (s : SysState) (now : Nat) (twilio_call_sid : Option String) : SysState :=
  let call := { s.task with
    status := Status.in_progress,
    started_at := some now,
    twilio_call_sid := twilio_call_sid }
  log_call_event { s with task := call } "started"
    (some (EventPayload.started twilio_call_sid)) none

/-- Request body of `POST /n8n/call/<id>/turn`. -/
structure TurnData where
  speaker : Option String := none
  text : Option String := none
  timestamp : Option String := none
  deriving Repr, DecidableEq

/-- `POST /n8n/call/<id>/turn` (src/app.py lines 490-521), found-task branch:
logs a `turn` event and appends to the transcript cache; never touches
status. -/
def n8n_call_turn (s : SysState) (d : TurnData) : SysState :=
  let s := log_call_event s "turn"
    (some (EventPayload.turn d.speaker d.text d.timestamp)) none
  let turn_text := "[" ++ d.speaker.getD "unknown" ++ "]: " ++ d.text.getD "" ++ "\n"
  { s with task := { s.task with
      transcript := some (s.task.transcript.getD "" ++ turn_text) } }

/-- Request body of `POST /n8n/call/<id>/complete`. -/
structure CompleteData where
  result_status : Option String := none
  result_summary : Option String := none
  result_data : Option String := none
  duration_seconds : Option Nat := none
  deriving Repr, DecidableEq

/-- `POST /n8n/call/<id>/complete` (src/app.py lines 524-565), found-task
branch: unconditionally sets status `completed`, overwrites `completed_at`
and every result field from the posted body, recomputes `cost_cents` when a
non-zero duration is posted (Python truthiness: `if call.duration_seconds:`
skips both `None` and `0`), then logs a `completed` event. -/
def n8n_call_complete (s : SysState) (now : Nat) (d : CompleteData) : SysState :=
  let call := { s.task with
    status := Status.completed,
    completed_at := some now,
    result_status := some (d.result_status.getD "completed"),
    result_summary := d.result_summary,
    result_data := d.result_data,
    duration_seconds := d.duration_seconds }
  let call := match d.duration_seconds with
    | some ds =>
        if ds ≠ 0 then
          { call with cost_cents := some (costCents ds (ratePerMin call.routing_type)) }
        else call
    | none => call
  log_call_event { s with task := call } "completed"
    (some (EventPayload.completed call.result_status call.result_summary
      call.duration_seconds)) none

/-- Request body of `POST /n8n/call/<id>/error`. -/
structure ErrorData where
  error_message : Option String := none
  error_code : Option String := none
  deriving Repr, DecidableEq

/-- `POST /n8n/call/<id>/error` (src/app.py lines 645-682), found-task
branch: unconditionally sets status `failed`, `completed_at`,
`result_status = "failed"`, `result_summary` from the message, then logs an
`error` event. -/
def n8n_call_error (s : SysState) (now : Nat) (d : ErrorData) : SysState :=
  let call := { s.task with
    status := Status.failed,
    completed_at := some now,
    result_status := some "failed",
    result_summary := some (d.error_message.getD "Unknown error") }
  log_call_event { s with task := call } "error"
    (some (EventPayload.err d.error_message d.error_code)) d.error_message

/-- Outcome of `POST /call/<id>/cancel` for a found, owned task. -/
inductive CancelResult where
  | ok (status : Status)
  | cannotCancel (status : Status)
  deriving Repr, DecidableEq

/-- `POST /call/<id>/cancel` (src/app.py lines 878-898), found-and-owned
branch: statuses outside draft/scheduled are rejected with
`call_cannot_be_canceled` and the task is left unchanged; otherwise status
becomes `canceled`, and only then is the `canceled` event logged with
`previous_status` read back from the already-overwritten `call.status`. -/
def cancel_call (s : SysState) : SysState × CancelResult :=
  if s.task.status = Status.draft ∨ s.task.status = Status.scheduled then
    let call := { s.task with status := Status.canceled }
    (log_call_event { s with task := call } "canceled"
        (some (EventPayload.canceled call.status.toStr)) none,
      CancelResult.ok call.status)
  else
    (s, CancelResult.cannotCancel s.task.status)

/-- `call_status.replace("-", "_")` for the single-character pattern used at
src/app.py line 1125. -/
def dashToUnderscore (str : String) : String :=
  str.map fun c => if c = '-' then '_' else c

/-- `POST /twilio/status` (src/app.py lines 1096-1132), found-task branch.
`duration` is the parsed `CallDuration` form value (`int(duration) if
duration else None`: `none` models the empty string).  A
`twilio_status_<CallStatus>` event is always logged first; then a
`completed` status is applied only if the task is not already `completed`,
while `busy`/`no-answer`/`failed`/`canceled` unconditionally drive the task
to `failed`. -/
def twilio_status_webhook (s : SysState) (now : Nat) (call_status : String)
    (duration : Option Nat) : SysState :=
  let s := log_call_event s ("twilio_status_" ++ call_status)
    (some (EventPayload.twilioStatus call_status duration)) none
  if call_status = "completed" then
    if s.task.status ≠ Status.completed then
      let call := { s.task with
        status := Status.completed,
        completed_at := some now,
        duration_seconds := duration }
      let call := match duration with
        | some ds =>
            if ds ≠ 0 then
              { call with cost_cents := some (costCents ds (ratePerMin call.routing_type)) }
            else call
        | none => call
      { s with task := call }
    else s
  else if call_status = "busy" ∨ call_status = "no-answer" ∨ call_status = "failed"
      ∨ call_status = "canceled" then
    let call := { s.task with
      status := Status.failed,
      result_status := some (dashToUnderscore call_status),
      completed_at := some now }
    { s with task := call }
  else s

-- -------- Hybrid routing (src/app.py lines 295-309) --------

/-- The columns of a `users` row the routing decision reads. -/
structure UserRec where
  is_admin : Bool
  deriving Repr, DecidableEq

/-- `_should_use_elevenlabs_agent` (src/app.py lines 295-309) as a pure
function of the configured agent ids, the looked-up user row (`none` when
`User.query.get` misses), and the two quota aggregates.  Python falsiness of
the env strings is emptiness. -/
def should_use_elevenlabs_agent (agentId phoneNumberId : String) (user : Option UserRec)
    (weeklyTotalCostCents : Nat) (weeklyUserCallCount : Nat) : Bool :=
  if agentId = "" ∨ phoneNumberId = "" then false
  else if (match user with | some u => u.is_admin | none => false) then true
  else if weeklyTotalCostCents ≥ WEEKLY_COST_LIMIT_CENTS then false
  else if weeklyUserCallCount ≥ WEEKLY_CALLS_PER_USER then false
  else true

-- -------- Task creation (src/app.py lines 689-736) --------

/-- `POST /call/schedule` (src/app.py lines 689-736) up to and including the
`commit` that creates the task row and the `created` event — the point at
which the claim-relevant validation and creation are decided (the later
agent-dispatch attempt only acts on an already-created task).  The only
validation is Python truthiness of `data.get("target_phone")`: absent or
empty rejects with a 400 `target_phone required` and no task row is ever
added.  `use_agent` is the routing decision `_should_use_elevenlabs_agent`
computed by the caller's quota state. -/
def schedule_call_create (target_phone : Option String)
    (target_name objective context call_script : Option String)
    (scheduled_at : Option Nat) (now : Nat) (use_agent : Bool) :
    Except String SysState :=
  match target_phone with
  | none => Except.error "target_phone required"
  | some p =>
    if p = "" then Except.error "target_phone required"
    else
      let sched := scheduled_at.getD now
      let call : CallTask := {
        status := Status.scheduled,
        target_name := target_name,
        target_phone := p,
        objective := objective,
        context := context,
        call_script := call_script,
        scheduled_at := some sched,
        routing_type := some (if use_agent then "elevenlabs_agent" else "twilio_custom") }
      Except.ok (log_call_event { task := call, events := [] } "created"
        (some (EventPayload.created p sched call.routing_type)) none)

/-- Whether a schedule request created a task row. -/
def scheduleCreated (r : Except String SysState) : Bool :=
  match r with
  | Except.ok _ => true
  | Except.error _ => false

-- -------- Conversation window builder (src/app.py lines 1151-1171, 1203-1253) --------

/-- `PHONE_AGENT_SYSTEM_PROMPT` (src/app.py lines 1151-1171), with the
punctuation-heavy example sentences lightly paraphrased; every theorem below
treats this constant as an opaque prefix, so only its identity as "the fixed
system-prompt string" matters, never its exact wording. -/
def PHONE_AGENT_SYSTEM_PROMPT : String :=
  "You are Tori, a friendly and natural-sounding AI phone assistant calling on behalf of your user.\n\nCONVERSATION RULES:\n- Speak naturally like a real person on a phone call. Use casual, warm language.\n- Keep responses to 1-3 short sentences. This is a phone call, not an essay.\n- Always end with a follow-up question or next step to keep the conversation going.\n- If the person answers your question, acknowledge their answer before moving on.\n- If you have accomplished the call objective, wrap up politely.\n- Never say you are an AI unless directly asked. Just be helpful.\n- Do not use bullet points, lists, or any text formatting - this is spoken audio.\n- Use natural filler words occasionally.\n"

/-- Python `x or default` on an optional string column: `None` and the empty
string both fall back to the default. -/
def pyOr (o : Option String) (d : String) : String :=
  match o with
  | some v => if v = "" then d else v
  | none => d

/-- The system preamble built at the top of `_phone_agent_chat`
(src/app.py lines 1214-1227) from the task's target name, objective,
context payload and script hint.  `jsonNorm` abstracts the
`json.dumps(json.loads(...))` round-trip on the stored context string
(`none` models the swallowed parse exception). -/
def phone_agent_system (jsonNorm : String → Option String) (call : Option CallTask) : String :=
  match call with
  | none => PHONE_AGENT_SYSTEM_PROMPT
  | some c =>
    let s := PHONE_AGENT_SYSTEM_PROMPT ++ "\nCALL CONTEXT:"
    let s := s ++ "\n- Calling: " ++ pyOr c.target_name "someone"
    let s := s ++ "\n- Objective: " ++ pyOr c.objective "general conversation"
    let s := match c.context with
      | some ctx =>
        if ctx ≠ "" then
          match jsonNorm ctx with
          | some details => s ++ "\n- Details: " ++ details
          | none => s
        else s
      | none => s
    match c.call_script with
    | some sc => if sc ≠ "" then s ++ "\n- Script guidance: " ++ sc else s
    | none => s

/-- One entry of the `messages` list handed to the chat-completion call. -/
structure ChatMsg where
  role : String
  content : String
  deriving Repr, DecidableEq

/-- The `event_type == "turn"` filter of the history query
(src/app.py lines 1234-1237). -/
def isTurnEvent (e : CallEvent) : Bool :=
  e.event_type = "turn"

/-- The per-event mapping of the history loop (src/app.py lines 1240-1250):
`speaker == "human"` with truthy text becomes a user message,
`speaker == "ai"` with truthy text an assistant message, anything else is
skipped (as is a missing or non-turn payload). -/
def turnMessage (e : CallEvent) : Option ChatMsg :=
  match e.payload with
  | some (EventPayload.turn speaker text _) =>
    let sp := speaker.getD ""
    let tx := text.getD ""
    if sp = "human" ∧ tx ≠ "" then some { role := "user", content := tx }
    else if sp = "ai" ∧ tx ≠ "" then some { role := "assistant", content := tx }
    else none
  | _ => none

/-- The `messages` list built by `_phone_agent_chat`
(src/app.py lines 1229-1253): the system preamble, then — when a task was
found — the task's `turn` events queried in descending timestamp order,
limited to 10 and reversed back to chronological order, mapped through the
speaker/text loop, and finally the current speech result as the last user
message. -/
def phone_agent_messages (jsonNorm : String → Option String) (call : Option CallTask)
    (events : List CallEvent) (speech_result : String) : List ChatMsg :=
  let messages := [{ role := "system", content := phone_agent_system jsonNorm call }]
  let messages := match call with
    | some _ =>
      let turns := ((events.filter isTurnEvent).reverse.take 10).reverse
      messages ++ turns.filterMap turnMessage
    | none => messages
  messages ++ [{ role := "user", content := speech_result }]

-- -------- Derived observations used by the claims --------

/-- Number of events of a given type in a task's log. -/
def countEvents (s : SysState) (ty : String) : Nat :=
  (s.events.filter fun e => e.event_type == ty).length

/-- Modelled from the spec's words (the claim's comparison formula, not code
of the repository): the ceiling-rounded cost `ceil(duration/60 × rate)` in
cents, as exact natural arithmetic. -/
def specCeilCost (duration_seconds rate : Nat) : Nat :=
  (duration_seconds * rate + 59) / 60

/-- Modelled from the spec's words (the claim's validation predicate, not
code of the repository): a phone string is normalizable to E.164 when it is
a plus sign followed by one to fifteen digits. -/
def specE164Normalizable (p : String) : Bool :=
  match p.data with
  | [] => false
  | c :: rest =>
    c == '+' && decide (1 ≤ rest.length) && decide (rest.length ≤ 15) &&
      rest.all Char.isDigit

-- ==================== Theorems ====================

/-- Descending query order, a limit, and a final reversal together select
the chronological suffix of a list. -/
theorem reverse_take_reverse {α : Type} (l : List α) (n : Nat) :
    (l.reverse.take n).reverse = l.drop (l.length - n) := by
  rw [List.take_reverse, List.reverse_reverse]

/-- C4 (counterexample): a start notification for a task whose correlation
id is already set to the different value CA111 is not rejected — the code
accepts it, overwrites both `twilio_call_sid` and `started_at`, and logs a
`started` event with no error, even though the task was not `scheduled`. -/
theorem claim4_counterexample :
    (n8n_call_start
        { task := { status := Status.in_progress, target_phone := "+15551234567",
                    started_at := some 1, twilio_call_sid := some "CA111" },
          events := [] } 9 (some "CA222")).task.twilio_call_sid = some "CA222" ∧
    (n8n_call_start
        { task := { status := Status.in_progress, target_phone := "+15551234567",
                    started_at := some 1, twilio_call_sid := some "CA111" },
          events := [] } 9 (some "CA222")).task.started_at = some 9 ∧
    countEvents (n8n_call_start
        { task := { status := Status.in_progress, target_phone := "+15551234567",
                    started_at := some 1, twilio_call_sid := some "CA111" },
          events := [] } 9 (some "CA222")) "error" = 0 := by
  decide

/-- C4 (amended): the start operation is applied unconditionally from any
status — it sets status `in_progress`, overwrites `started_at` with the
current time and the backend correlation id with the posted value (even
when already set to a different value), and logs a `started` event; no
guard rejects a duplicate or out-of-state start notification. -/
theorem claim4_start_unguarded (s : SysState) (now : Nat) (sid : Option String) :
    (n8n_call_start s now sid).task =
      { s.task with status := Status.in_progress, started_at := some now,
                    twilio_call_sid := sid } ∧
    (n8n_call_start s now sid).events =
      s.events ++ [{ event_type := "started", payload := some (EventPayload.started sid) }] := by
  exact ⟨rfl, rfl⟩

/-- C9 (counterexample): a creation request whose phone string is clearly
not normalizable to E.164 is accepted and a task is created; creation only
checks non-emptiness. -/
theorem claim9_counterexample :
    scheduleCreated
      (schedule_call_create (some "not-a-number") none none none none none 0 false) = true ∧
    specE164Normalizable "not-a-number" = false := by
  decide

/-- C9 (amended): a task is created exactly when the target phone field is
present and non-empty; no E.164 normalization or well-formedness check is
performed at creation, and a missing or empty phone is rejected with a
validation error and no task. -/
theorem claim9_phone_presence_only (target_phone : Option String)
    (tn ob ctx cs : Option String) (sa : Option Nat) (now : Nat) (ua : Bool) :
    scheduleCreated (schedule_call_create target_phone tn ob ctx cs sa now ua) =
      (target_phone.getD "" != "") := by
  cases target_phone with
  | none => rfl
  | some p =>
    by_cases hp : p = "" <;>
      simp [schedule_call_create, scheduleCreated, hp]

/-- C5: for a non-admin user with both agent ids configured and the user's
weekly call count under the per-user ceiling, the router chooses the
custom-script backend when the window's aggregate cost has reached the
weekly cost ceiling and the agent-hosted backend when the aggregate cost is
at least one cent below it; an admin user is always routed to the
agent-hosted backend when it is configured, regardless of quotas. -/
theorem claim5_quota_routing (agentId phoneNumberId : String)
    (ha : agentId ≠ "") (hp : phoneNumberId ≠ "") :
    (∀ cost calls : Nat, calls < WEEKLY_CALLS_PER_USER →
        WEEKLY_COST_LIMIT_CENTS ≤ cost →
        should_use_elevenlabs_agent agentId phoneNumberId
          (some { is_admin := false }) cost calls = false) ∧
    (∀ cost calls : Nat, calls < WEEKLY_CALLS_PER_USER →
        cost + 1 ≤ WEEKLY_COST_LIMIT_CENTS →
        should_use_elevenlabs_agent agentId phoneNumberId
          (some { is_admin := false }) cost calls = true) ∧
    (∀ cost calls : Nat,
        should_use_elevenlabs_agent agentId phoneNumberId
          (some { is_admin := true }) cost calls = true) := by
  have hids : ¬(agentId = "" ∨ phoneNumberId = "") := by
    rintro (h | h)
    · exact ha h
    · exact hp h
  refine ⟨fun cost calls hcalls hcost => ?_, fun cost calls hcalls hcost => ?_,
    fun cost calls => ?_⟩ <;>
    · simp only [should_use_elevenlabs_agent, WEEKLY_COST_LIMIT_CENTS,
        WEEKLY_CALLS_PER_USER] at *
      split_ifs with h1 h2 h3 h4 <;>
        first
          | rfl
          | (exact absurd h1 hids)
          | omega
          | simp_all

/-- Witness for C5 at the concrete boundary: cost exactly at the 2000-cent
ceiling routes custom, 1999 routes agent-hosted, and an admin over every
quota still routes agent-hosted. -/
theorem claim5_witness :
    should_use_elevenlabs_agent "agent" "phone" (some { is_admin := false }) 2000 0 = false ∧
    should_use_elevenlabs_agent "agent" "phone" (some { is_admin := false }) 1999 0 = true ∧
    should_use_elevenlabs_agent "agent" "phone" (some { is_admin := true }) 5000 40 = true :=
  ⟨(claim5_quota_routing "agent" "phone" (by decide) (by decide)).1 2000 0 (by decide) (by decide),
   (claim5_quota_routing "agent" "phone" (by decide) (by decide)).2.1 1999 0 (by decide) (by decide),
   (claim5_quota_routing "agent" "phone" (by decide) (by decide)).2.2 5000 40⟩

/-- Closed form of the task row after a complete notification: every result
field is overwritten from the posted body, and `cost_cents` is recomputed
from the posted duration exactly when that duration is present and
non-zero. -/
theorem n8n_call_complete_task (s : SysState) (now : Nat) (d : CompleteData) :
    (n8n_call_complete s now d).task =
      { s.task with
        status := Status.completed,
        completed_at := some now,
        result_status := some (d.result_status.getD "completed"),
        result_summary := d.result_summary,
        result_data := d.result_data,
        duration_seconds := d.duration_seconds,
        cost_cents :=
          match d.duration_seconds with
          | some ds =>
              if ds ≠ 0 then some (costCents ds (ratePerMin s.task.routing_type))
              else s.task.cost_cents
          | none => s.task.cost_cents } := by
  unfold n8n_call_complete log_call_event
  cases d.duration_seconds with
  | none => rfl
  | some ds =>
    by_cases h0 : ds = 0 <;> simp [h0]

/-- Closed form of the event log after a complete notification: exactly one
`completed` event is appended, whatever the prior status was. -/
theorem n8n_call_complete_events (s : SysState) (now : Nat) (d : CompleteData) :
    (n8n_call_complete s now d).events =
      s.events ++
        [{ event_type := "completed",
           payload := some (EventPayload.completed
             (some (d.result_status.getD "completed")) d.result_summary
             d.duration_seconds) }] := by
  unfold n8n_call_complete log_call_event
  cases d.duration_seconds with
  | none => rfl
  | some ds =>
    by_cases h0 : ds = 0 <;> simp [h0]

/-- C1 (counterexample): a task whose status is terminal (`completed`)
receives a start notification and its status changes to `in_progress` —
the code has no guard against leaving a terminal state. -/
theorem claim1_counterexample :
    Status.isTerminal Status.completed = true ∧
    (n8n_call_start
        { task := { status := Status.completed, target_phone := "+15551234567" },
          events := [] } 5 (some "CA2")).task.status = Status.in_progress ∧
    Status.in_progress ≠ Status.completed := by
  decide

/-- C1 (amended): terminal statuses are only guarded by the cancel endpoint
and by the `completed` branch of the Twilio status callback: from any
terminal status, a start notification moves the task to `in_progress`, a
complete notification to `completed`, an error notification to `failed`,
and each of the `busy`, `no-answer`, `failed` and `canceled` status
callbacks to `failed`, while a turn never changes the
status, cancel rejects the request leaving the state unchanged, and a
`completed` status callback on an already-completed task leaves the task
row unchanged. -/
theorem claim1_terminal_not_guarded (s : SysState) (now : Nat) (sid : Option String)
    (d : CompleteData) (ed : ErrorData) (td : TurnData) (dur : Option Nat)
    (h : Status.isTerminal s.task.status = true) :
    (n8n_call_start s now sid).task.status = Status.in_progress ∧
    (n8n_call_complete s now d).task.status = Status.completed ∧
    (n8n_call_error s now ed).task.status = Status.failed ∧
    (∀ cs : String, (cs = "busy" ∨ cs = "no-answer" ∨ cs = "failed" ∨ cs = "canceled") →
      (twilio_status_webhook s now cs dur).task.status = Status.failed) ∧
    (n8n_call_turn s td).task.status = s.task.status ∧
    (cancel_call s).1 = s ∧
    (cancel_call s).2 = CancelResult.cannotCancel s.task.status ∧
    (s.task.status = Status.completed →
      (twilio_status_webhook s now "completed" dur).task = s.task) := by
  have hnc : ¬(s.task.status = Status.draft ∨ s.task.status = Status.scheduled) := by
    cases hst : s.task.status <;> simp_all [Status.isTerminal]
  refine ⟨rfl, ?_, rfl, ?_, rfl, ?_, ?_, ?_⟩
  · simp [n8n_call_complete_task]
  · intro cs hcs
    have hne : ¬cs = "completed" := by
      rcases hcs with h | h | h | h <;> subst h <;> decide
    unfold twilio_status_webhook log_call_event
    rw [if_neg hne, if_pos hcs]
  · unfold cancel_call
    rw [if_neg hnc]
  · unfold cancel_call
    rw [if_neg hnc]
  · intro hc
    unfold twilio_status_webhook log_call_event
    rw [if_pos (rfl : ("completed" : String) = "completed"),
      if_neg (fun hne => hne hc)]

/-- C2 (counterexample): a task that is `in_progress` receives the same
complete notification twice with an identical payload; the task ends
`completed`, but its event log holds two `completed` CallEvents, not one. -/
theorem claim2_counterexample :
    (n8n_call_complete (n8n_call_complete
        { task := { status := Status.in_progress, target_phone := "+15551234567",
                    routing_type := some "twilio_custom" }, events := [] } 1
        { result_status := some "success", duration_seconds := some 120 }) 2
        { result_status := some "success", duration_seconds := some 120 }).task.status =
      Status.completed ∧
    countEvents (n8n_call_complete (n8n_call_complete
        { task := { status := Status.in_progress, target_phone := "+15551234567",
                    routing_type := some "twilio_custom" }, events := [] } 1
        { result_status := some "success", duration_seconds := some 120 }) 2
        { result_status := some "success", duration_seconds := some 120 }) "completed" = 2 := by
  decide

/-- C2 (amended): applying the same complete notification twice with an
identical payload yields one completed task — the second application only
rewrites `completed_at` with the newer time — but the event log gains one
`completed` CallEvent per application, two in total, because the endpoint
appends unconditionally. -/
theorem claim2_double_complete (s : SysState) (t1 t2 : Nat) (d : CompleteData)
    (h : s.task.status = Status.in_progress) :
    (n8n_call_complete s t1 d).task.status = Status.completed ∧
    (n8n_call_complete (n8n_call_complete s t1 d) t2 d).task =
      { (n8n_call_complete s t1 d).task with completed_at := some t2 } ∧
    countEvents (n8n_call_complete (n8n_call_complete s t1 d) t2 d) "completed" =
      countEvents s "completed" + 2 := by
  refine ⟨by simp [n8n_call_complete_task], ?_, ?_⟩
  · simp only [n8n_call_complete_task]
    cases hd : d.duration_seconds with
    | none => rfl
    | some ds => by_cases h0 : ds = 0 <;> simp [h0]
  · simp [countEvents, n8n_call_complete_events, List.filter_append]

/-- C3 (counterexample): a task already completed with duration 120 and cost
20 receives a second complete notification with duration 180; instead of a
rejection with an `error` event, the code overwrites the recorded duration
(120 → 180) and cost (20 → 30), logs a second `completed` event, and no
`error` event exists. -/
theorem claim3_counterexample :
    (n8n_call_complete
        { task := { status := Status.completed, target_phone := "+15551234567",
                    routing_type := some "elevenlabs_agent", result_status := some "success",
                    duration_seconds := some 120, cost_cents := some 20,
                    completed_at := some 1 },
          events := [{ event_type := "completed",
                       payload := some (EventPayload.completed (some "success") none
                         (some 120)) }] } 2
        { result_status := some "success", duration_seconds := some 180 }).task.duration_seconds =
      some 180 ∧
    (n8n_call_complete
        { task := { status := Status.completed, target_phone := "+15551234567",
                    routing_type := some "elevenlabs_agent", result_status := some "success",
                    duration_seconds := some 120, cost_cents := some 20,
                    completed_at := some 1 },
          events := [{ event_type := "completed",
                       payload := some (EventPayload.completed (some "success") none
                         (some 120)) }] } 2
        { result_status := some "success", duration_seconds := some 180 }).task.cost_cents =
      some 30 ∧
    countEvents (n8n_call_complete
        { task := { status := Status.completed, target_phone := "+15551234567",
                    routing_type := some "elevenlabs_agent", result_status := some "success",
                    duration_seconds := some 120, cost_cents := some 20,
                    completed_at := some 1 },
          events := [{ event_type := "completed",
                       payload := some (EventPayload.completed (some "success") none
                         (some 120)) }] } 2
        { result_status := some "success", duration_seconds := some 180 }) "error" = 0 ∧
    countEvents (n8n_call_complete
        { task := { status := Status.completed, target_phone := "+15551234567",
                    routing_type := some "elevenlabs_agent", result_status := some "success",
                    duration_seconds := some 120, cost_cents := some 20,
                    completed_at := some 1 },
          events := [{ event_type := "completed",
                       payload := some (EventPayload.completed (some "success") none
                         (some 120)) }] } 2
        { result_status := some "success", duration_seconds := some 180 }) "completed" = 2 := by
  decide

/-- C3 (amended): applying complete again with a different, non-zero
duration on an already-completed task is accepted, not rejected: the posted
duration replaces the recorded one, the cost is recomputed from it, no
`error` CallEvent is produced, and a second `completed` CallEvent is
appended. -/
theorem claim3_conflicting_complete_overwrites (s : SysState) (t : Nat) (d : CompleteData)
    (d1 d2 : Nat) (hst : s.task.status = Status.completed)
    (h1 : s.task.duration_seconds = some d1)
    (h2 : d.duration_seconds = some d2) (hne : d2 ≠ d1) (h0 : d2 ≠ 0) :
    (n8n_call_complete s t d).task.duration_seconds = some d2 ∧
    (n8n_call_complete s t d).task.cost_cents =
      some (costCents d2 (ratePerMin s.task.routing_type)) ∧
    countEvents (n8n_call_complete s t d) "error" = countEvents s "error" ∧
    countEvents (n8n_call_complete s t d) "completed" = countEvents s "completed" + 1 := by
  refine ⟨by simp [n8n_call_complete_task, h2], by simp [n8n_call_complete_task, h2, h0], ?_, ?_⟩
  · simp [countEvents, n8n_call_complete_events, List.filter_append]
  · simp [countEvents, n8n_call_complete_events, List.filter_append]

/-- C6 (counterexample): a completion with duration 125 seconds on the
agent-hosted backend (rate 10 cents/min) yields `cost_cents = 20`, the
floor of 125/60 × 10, not the ceiling 21 the claim demands. -/
theorem claim6_counterexample :
    (n8n_call_complete
        { task := { status := Status.in_progress, target_phone := "+15551234567",
                    routing_type := some "elevenlabs_agent" }, events := [] } 3
        { result_status := some "success", duration_seconds := some 125 }).task.cost_cents =
      some 20 ∧
    specCeilCost 125 COST_PER_MIN_ELEVENLABS_AGENT = 21 ∧
    (n8n_call_complete
        { task := { status := Status.in_progress, target_phone := "+15551234567",
                    routing_type := some "elevenlabs_agent" }, events := [] } 3
        { result_status := some "success", duration_seconds := some 125 }).task.cost_cents ≠
      some (specCeilCost 125 COST_PER_MIN_ELEVENLABS_AGENT) := by
  decide

/-- C6 (amended): for every call completed with a present, non-zero
duration of d seconds — through the n8n complete notification, or through a
`completed` Twilio status callback on a not-yet-completed task — the
computed cost is `max 1 (floor(d × rate / 60))` where the rate is that of
the backend recorded on the task: truncation (Python `int`), not ceiling
rounding. -/
theorem claim6_cost_floor (s : SysState) (now : Nat) (d : CompleteData) (ds : Nat)
    (h : d.duration_seconds = some ds) (h0 : ds ≠ 0) :
    (n8n_call_complete s now d).task.cost_cents =
      some (max 1 (ds * ratePerMin s.task.routing_type / 60)) ∧
    (s.task.status ≠ Status.completed →
      (twilio_status_webhook s now "completed" (some ds)).task.cost_cents =
        some (max 1 (ds * ratePerMin s.task.routing_type / 60))) := by
  constructor
  · simp [n8n_call_complete_task, h, h0, costCents]
  · intro hst
    unfold twilio_status_webhook log_call_event
    rw [if_pos (rfl : ("completed" : String) = "completed"), if_pos hst]
    simp [h0, costCents]

/-- Witness for C6: completing a 125-second agent-routed call records the
floored cost of 20 cents on both cost-computation paths. -/
theorem claim6_witness :
    (n8n_call_complete
        { task := { status := Status.in_progress, target_phone := "+15551234567",
                    routing_type := some "elevenlabs_agent" }, events := [] } 3
        { duration_seconds := some 125 }).task.cost_cents = some 20 ∧
    (twilio_status_webhook
        { task := { status := Status.in_progress, target_phone := "+15551234567",
                    routing_type := some "elevenlabs_agent" }, events := [] } 3
        "completed" (some 125)).task.cost_cents = some 20 := by
  have h := claim6_cost_floor
      { task := { status := Status.in_progress, target_phone := "+15551234567",
                  routing_type := some "elevenlabs_agent" }, events := [] } 3
      { duration_seconds := some 125 } 125 rfl (by decide)
  constructor
  · rw [h.1]
    decide
  · rw [h.2 (by decide)]
    decide

/-- Witness for C1 at a concrete terminal (failed) task: a start
notification still moves it to `in_progress`. -/
theorem claim1_witness :
    Status.isTerminal Status.failed = true ∧
    (n8n_call_start
        { task := { status := Status.failed, target_phone := "+15551234567" },
          events := [] } 7 (some "CA9")).task.status = Status.in_progress :=
  ⟨by decide,
   (claim1_terminal_not_guarded
      { task := { status := Status.failed, target_phone := "+15551234567" }, events := [] }
      7 (some "CA9") {} {} {} none (by decide)).1⟩

/-- Witness for C2 at a concrete in-progress task: two identical complete
notifications leave two `completed` events in the log. -/
theorem claim2_witness :
    ({ task := { status := Status.in_progress, target_phone := "+15551234567" },
       events := [] } : SysState).task.status = Status.in_progress ∧
    countEvents (n8n_call_complete (n8n_call_complete
        { task := { status := Status.in_progress, target_phone := "+15551234567" },
          events := [] } 1 { duration_seconds := some 60 }) 2
        { duration_seconds := some 60 }) "completed" =
      countEvents ({ task := { status := Status.in_progress, target_phone := "+15551234567" },
                     events := [] } : SysState) "completed" + 2 :=
  ⟨rfl,
   (claim2_double_complete
      { task := { status := Status.in_progress, target_phone := "+15551234567" },
        events := [] } 1 2 { duration_seconds := some 60 } rfl).2.2⟩

/-- Witness for C3 at a concrete completed task: a complete notification
with conflicting duration 180 overwrites the recorded 120. -/
theorem claim3_witness :
    (180 : Nat) ≠ 120 ∧
    (n8n_call_complete
        { task := { status := Status.completed, target_phone := "+15551234567",
                    duration_seconds := some 120 }, events := [] } 2
        { duration_seconds := some 180 }).task.duration_seconds = some 180 :=
  ⟨by decide,
   (claim3_conflicting_complete_overwrites
      { task := { status := Status.completed, target_phone := "+15551234567",
                  duration_seconds := some 120 }, events := [] }
      2 { duration_seconds := some 180 } 120 180 rfl rfl rfl (by decide) (by decide)).1⟩

/-- C7: for every task, the generation context built by the phone agent is
the synthesized system preamble first, then at most the 10 most recent turn
events of the log in chronological order (the descending query plus the
final reversal select exactly the chronological suffix), and the current
utterance appended as the final user turn. -/
theorem claim7_conversation_window (jsonNorm : String → Option String) (c : CallTask)
    (events : List CallEvent) (speech_result : String) :
    phone_agent_messages jsonNorm (some c) events speech_result =
      { role := "system", content := phone_agent_system jsonNorm (some c) } ::
        (((events.filter isTurnEvent).drop
              ((events.filter isTurnEvent).length - 10)).filterMap turnMessage ++
          [{ role := "user", content := speech_result }]) ∧
    (((events.filter isTurnEvent).drop
        ((events.filter isTurnEvent).length - 10)).filterMap turnMessage).length ≤ 10 := by
  constructor
  · unfold phone_agent_messages
    rw [reverse_take_reverse]
    simp
  · calc (((events.filter isTurnEvent).drop
            ((events.filter isTurnEvent).length - 10)).filterMap turnMessage).length
        ≤ ((events.filter isTurnEvent).drop
            ((events.filter isTurnEvent).length - 10)).length :=
          List.length_filterMap_le _ _
      _ ≤ 10 := by
          rw [List.length_drop]
          omega

/-- C8: cancel succeeds exactly on draft and scheduled tasks, moving them to
`canceled`; on a task in any other state (in_progress or later) it fails
with the cannot-cancel error and leaves the state unchanged. -/
theorem claim8_cancel_guard (s : SysState) :
    ((s.task.status = Status.draft ∨ s.task.status = Status.scheduled) →
      (cancel_call s).2 = CancelResult.ok Status.canceled ∧
      (cancel_call s).1.task.status = Status.canceled) ∧
    (¬(s.task.status = Status.draft ∨ s.task.status = Status.scheduled) →
      (cancel_call s).2 = CancelResult.cannotCancel s.task.status ∧
      (cancel_call s).1 = s) := by
  constructor
  · intro h
    unfold cancel_call
    rw [if_pos h]
    exact ⟨rfl, rfl⟩
  · intro h
    unfold cancel_call
    rw [if_neg h]
    exact ⟨rfl, rfl⟩

/-- Witness for C8: cancel succeeds on a scheduled task and is rejected on
an in-progress one. -/
theorem claim8_witness :
    (cancel_call { task := { status := Status.scheduled, target_phone := "+15551234567" },
                   events := [] }).2 = CancelResult.ok Status.canceled ∧
    (cancel_call { task := { status := Status.in_progress, target_phone := "+15551234567" },
                   events := [] }).2 = CancelResult.cannotCancel Status.in_progress :=
  ⟨((claim8_cancel_guard
      { task := { status := Status.scheduled, target_phone := "+15551234567" },
        events := [] }).1 (Or.inr rfl)).1,
   ((claim8_cancel_guard
      { task := { status := Status.in_progress, target_phone := "+15551234567" },
        events := [] }).2 (by decide)).1⟩

/-- C10: a successful cancel appends a `canceled` CallEvent whose
`previous_status` payload field is the string "canceled" — the status after
the transition, which can never be the status the task actually had before
cancellation (always "draft" or "scheduled"), because the event is logged
after the status column is overwritten. -/
theorem claim10_canceled_event_previous_status (s : SysState)
    (h : s.task.status = Status.draft ∨ s.task.status = Status.scheduled) :
    (cancel_call s).1.events =
      s.events ++
        [{ event_type := "canceled",
           payload := some (EventPayload.canceled "canceled") }] ∧
    s.task.status.toStr ≠ "canceled" := by
  constructor
  · unfold cancel_call
    rw [if_pos h]
    rfl
  · rcases h with h | h <;> rw [h] <;> decide

/-- Witness for C10: canceling a scheduled task logs `previous_status`
"canceled", not "scheduled". -/
theorem claim10_witness :
    (cancel_call { task := { status := Status.scheduled, target_phone := "+15551234567" },
                   events := [] }).1.events =
      [{ event_type := "canceled",
         payload := some (EventPayload.canceled "canceled") }] ∧
    Status.toStr Status.scheduled ≠ "canceled" :=
  (claim10_canceled_event_previous_status
    { task := { status := Status.scheduled, target_phone := "+15551234567" },
      events := [] } (Or.inr rfl))

end MissionControl
